import Mathlib

/-!
Shallow embedding of the `groq-fastapi` service (`src/main.py`).

The service is a thin HTTP façade with three routes: `GET /health`,
`POST /chat` and `GET /models`.  We embed the handler bodies as pure
Lean functions.  Network effects are made explicit:

* the outbound Groq calls are supplied as oracle arguments
  (`upstream : ChatUpstreamCall → UpstreamChatResult` for chat, and a
  precomputed `fetch : Except PyExc Json` for the model listing);
* each endpoint additionally returns the list (or count) of outbound
  network calls it attempted, so claims about "no outbound call" are
  statable;
* wall-clock readings (`time.time()` deltas, `datetime.now()`) are
  passed in as parameters, since the handlers only copy them into the
  response.

Python-specific semantics that the handlers rely on are embedded
explicitly:

* `x or d` on an optional int/float defaults both on `None` and on a
  zero value (Python falsiness), embedded as `pyOrInt` / `pyOrRat`;
* `dict.get` returns a default for a missing key and raises
  `AttributeError` on a non-dict receiver;
* the exception hierarchy of the `requests` library (unpinned by the
  repository, hence the current release applies): `ConnectionError`,
  `Timeout`, `HTTPError` and — since requests 2.27 —
  `requests.exceptions.JSONDecodeError` are all subclasses of
  `requests.exceptions.RequestException`, embedded as
  `PyExc.isRequestException`.
-/

namespace GroqFastapi

/-- JSON values, as delivered by `response.json()` in `main.py`.
Numbers are embedded as integers (the fields the service touches are
ids, owner strings, booleans and integral token counts). -/
inductive Json where
  | null : Json
  | bool (b : Bool) : Json
  | num (n : Int) : Json
  | str (s : String) : Json
  | arr (elems : List Json) : Json
  | obj (fields : List (String × Json)) : Json
deriving Repr

/-- Process-wide configuration, read once at startup in `main.py`
lines 15-18 (`GROQ_API_KEY`, `GROQ_MODEL`, `MAX_TOKENS`,
`TEMPERATURE`). -/
structure Config where
  groq_api_key : String
  groq_model : String
  max_tokens : Int
  temperature : Rat
deriving Repr, DecidableEq

/-- The configuration obtained from an environment that sets only the
credential: the other three values fall back to the defaults hardcoded
in `main.py` (`openai/gpt-oss-120b`, 1024, 0.7). -/
def configWithKey (key : String) : Config :=
  { groq_api_key := key
    groq_model := "openai/gpt-oss-120b"
    max_tokens := 1024
    temperature := 7/10 }

/-- The configuration with every environment variable absent: the
credential defaults to the empty string. -/
def defaultConfig : Config := configWithKey ""

/-- An HTTP error response produced via `HTTPException(status_code, detail)`. -/
structure HttpError where
  status : Nat
  detail : String
deriving Repr, DecidableEq

/-- The HTTP status code of a handler outcome: 200 on success,
otherwise the `HTTPException` status. -/
def statusOf {α : Type} : Except HttpError α → Nat
  | .ok _ => 200
  | .error e => e.status

/-- Python exceptions that the `/models` handler body can raise.
`connectionError`, `timeout` and `httpError` arise from
`requests.get` / `raise_for_status`; `jsonDecodeError` from
`response.json()`; `attributeError` and `typeError` from running
`.get` / iteration on a value of the wrong shape. -/
inductive PyExc where
  | connectionError (s : String) : PyExc
  | timeout (s : String) : PyExc
  | httpError (s : String) : PyExc
  | jsonDecodeError (s : String) : PyExc
  | attributeError (s : String) : PyExc
  | typeError (s : String) : PyExc
deriving Repr, DecidableEq

/-- `str(e)` for an exception. -/
def PyExc.msg : PyExc → String
  | .connectionError s => s
  | .timeout s => s
  | .httpError s => s
  | .jsonDecodeError s => s
  | .attributeError s => s
  | .typeError s => s

/-- Whether the exception is caught by
`except requests.exceptions.RequestException`.  `ConnectionError`,
`Timeout` and `HTTPError` always were subclasses; since requests
2.27.0 `requests.exceptions.JSONDecodeError` subclasses
`RequestException` as well (via `InvalidJSONError`), and the
repository does not pin an older requests. `AttributeError` and
`TypeError` are builtins, not `RequestException`s. -/
def PyExc.isRequestException : PyExc → Bool
  | .connectionError _ => true
  | .timeout _ => true
  | .httpError _ => true
  | .jsonDecodeError _ => true
  | .attributeError _ => false
  | .typeError _ => false

/-- Python `d.get(key, default)`: on a dict, the value under the key or
the default; on any other receiver, `AttributeError`. -/
def dictGet (j : Json) (key : String) (default : Json) : Except PyExc Json :=
  match j with
  | .obj fields => .ok ((fields.lookup key).getD default)
  | _ => .error (.attributeError "object has no attribute get")

/-- Python iteration (`for model in x`): a list yields its elements, a
string its characters, a dict its keys; other values raise
`TypeError`. -/
def pyIter (j : Json) : Except PyExc (List Json) :=
  match j with
  | .arr elems => .ok elems
  | .str s => .ok (s.toList.map (fun c => Json.str (String.mk [c])))
  | .obj fields => .ok (fields.map (fun p => Json.str p.1))
  | _ => .error (.typeError "object is not iterable")

/- ### POST /chat -/

/-- The raw chat body after the framework has checked field types:
each of the three fields is either present or absent. -/
structure ChatBodyJson where
  message : Option String
  max_tokens : Option Int
  temperature : Option Rat
deriving Repr, DecidableEq

/-- The validated `ChatRequest` pydantic model (`main.py` lines 43-46):
`message : str` is required with no default, `max_tokens` and
`temperature` default to `None`. -/
structure ChatRequest where
  message : String
  max_tokens : Option Int
  temperature : Option Rat
deriving Repr, DecidableEq

/-- Framework-side validation of the chat body against `ChatRequest`:
a body missing `message` is rejected with 422 before the handler runs;
`message : str` carries no emptiness constraint, so any present string
(the empty one included) validates. -/
def validateChatRequest (body : ChatBodyJson) : Except HttpError ChatRequest :=
  match body.message with
  | none => .error ⟨422, "Field required: message"⟩
  | some m => .ok ⟨m, body.max_tokens, body.temperature⟩

/-- Python `x or d` for an optional int: `None` and `0` are falsy. -/
def pyOrInt (x : Option Int) (d : Int) : Int :=
  match x with
  | none => d
  | some v => if v = 0 then d else v

/-- Python `x or d` for an optional float: `None` and `0.0` are falsy. -/
def pyOrRat (x : Option Rat) (d : Rat) : Rat :=
  match x with
  | none => d
  | some v => if v = 0 then d else v

/-- `get_groq_client` (`main.py` lines 34-40): the lazily initialized
global client, embedded as explicit state `Option String` holding the
credential the client was built with.  With no client yet and an empty
(falsy) `GROQ_API_KEY` it raises `HTTPException(500)`; otherwise it
returns the (possibly just created) client and the new state. -/
def get_groq_client (cfg : Config) (groq_client : Option String) :
    Except HttpError (String × Option String) :=
  match groq_client with
  | some client => .ok (client, some client)
  | none =>
      if cfg.groq_api_key = "" then
        .error ⟨500, "GROQ_API_KEY not configured"⟩
      else
        .ok (cfg.groq_api_key, some cfg.groq_api_key)

/-- One outbound `client.chat.completions.create(...)` call, with the
arguments `main.py` lines 85-91 passes. -/
structure ChatUpstreamCall where
  model : String
  content : String
  max_tokens : Int
  temperature : Rat
  stream : Bool
deriving Repr, DecidableEq

/-- Outcome of the upstream chat call: first choice text plus
`usage.total_tokens`, or an exception. -/
inductive UpstreamChatResult where
  | ok (content : String) (total_tokens : Nat) : UpstreamChatResult
  | exc (s : String) : UpstreamChatResult

/-- The `ChatResponse` pydantic model (`main.py` lines 48-53). -/
structure ChatResponse where
  response : String
  model : String
  tokens_used : Nat
  response_time : Rat
  timestamp : Nat
deriving Repr, DecidableEq

/-- The `chat_completion` handler body (`main.py` lines 70-112).
Returns the handler outcome, the list of outbound upstream calls
attempted, and the client state after the call.  The `try` block wraps
every exception — the `HTTPException` raised by `get_groq_client`
included — into a 500 whose detail embeds `str(e)`. -/
def chat_completion (cfg : Config) (groq_client : Option String)
    (request : ChatRequest) (upstream : ChatUpstreamCall → UpstreamChatResult)
    (elapsed : Rat) (now : Nat) :
    Except HttpError ChatResponse × List ChatUpstreamCall × Option String :=
  match get_groq_client cfg groq_client with
  | .error e =>
      (.error ⟨500, "AI response failed: " ++ toString e.status ++ ": " ++ e.detail⟩,
       [], groq_client)
  | .ok (_client, groq_client') =>
      let max_tokens := pyOrInt request.max_tokens cfg.max_tokens
      let temperature := pyOrRat request.temperature cfg.temperature
      let call : ChatUpstreamCall :=
        ⟨cfg.groq_model, request.message, max_tokens, temperature, false⟩
      match upstream call with
      | .ok content total_tokens =>
          (.ok ⟨content, cfg.groq_model, total_tokens, elapsed, now⟩,
           [call], groq_client')
      | .exc s =>
          (.error ⟨500, "AI response failed: " ++ s⟩, [call], groq_client')

/-- The full `POST /chat` route: framework validation, then the
handler.  A validation failure produces the 422 before the handler
body runs, so no upstream call is attempted. -/
def chat_endpoint (cfg : Config) (groq_client : Option String)
    (body : ChatBodyJson) (upstream : ChatUpstreamCall → UpstreamChatResult)
    (elapsed : Rat) (now : Nat) :
    Except HttpError ChatResponse × List ChatUpstreamCall × Option String :=
  match validateChatRequest body with
  | .error e => (.error e, [], groq_client)
  | .ok request => chat_completion cfg groq_client request upstream elapsed now

/- ### GET /models -/

/-- One entry of the `data` list the handler emits: the dict literal of
`main.py` lines 137-143, exactly the five selected fields, each the
result of `model.get(...)` on the upstream descriptor. -/
structure ModelEntry where
  id : Json
  owned_by : Json
  active : Json
  context_window : Json
  max_completion_tokens : Json
deriving Repr

/-- Build one `model_info` dict from an upstream descriptor
(`main.py` lines 137-144): `model.get(key)` returns `None` for a
missing key and raises on a non-dict descriptor. -/
def extractEntry (model : Json) : Except PyExc ModelEntry := do
  let i ← dictGet model "id" Json.null
  let ow ← dictGet model "owned_by" Json.null
  let ac ← dictGet model "active" Json.null
  let cw ← dictGet model "context_window" Json.null
  let mc ← dictGet model "max_completion_tokens" Json.null
  pure ⟨i, ow, ac, cw, mc⟩

/-- The extraction loop of `main.py` lines 136-144 (`for model in ...:
available_models.append(model_info)`): entries in descriptor order,
stopping at the first descriptor that raises. -/
def extractModels : List Json → Except PyExc (List ModelEntry)
  | [] => .ok []
  | model :: rest => do
      let entry ← extractEntry model
      let others ← extractModels rest
      pure (entry :: others)

/-- The `result` dict of `main.py` lines 147-152. -/
structure ModelsResult where
  object : Json
  data : List ModelEntry
  current_model : String
  total_models : Nat
deriving Repr

/-- The `try` block of `get_available_models` (`main.py` lines
127-157): the outbound fetch (`requests.get` + `raise_for_status` +
`response.json()`, summarized by the `fetch` argument), then
`models_data.get("data", [])`, the extraction loop, and the result
dict (whose `object` field reads `models_data.get("object")`). -/
def modelsTryBody (cfg : Config) (fetch : Except PyExc Json) :
    Except PyExc ModelsResult := do
  let models_data ← fetch
  let dataField ← dictGet models_data "data" (Json.arr [])
  let items ← pyIter dataField
  let available_models ← extractModels items
  let objField ← dictGet models_data "object" Json.null
  pure ⟨objField, available_models, cfg.groq_model, available_models.length⟩

/-- The `get_available_models` handler (`main.py` lines 114-164).
The second component counts outbound listing calls: the handler builds
the url and headers and issues `requests.get` unconditionally — there
is no credential check — so the count is always 1.  Exceptions map per
the two `except` clauses: `RequestException` → 503, anything else →
500, each detail embedding `str(e)`. -/
def get_available_models (cfg : Config) (fetch : Except PyExc Json) :
    Except HttpError ModelsResult × Nat :=
  (match modelsTryBody cfg fetch with
   | .ok result => .ok result
   | .error e =>
       if e.isRequestException then
         .error ⟨503, "Unable to fetch models from Groq API: " ++ e.msg⟩
       else
         .error ⟨500, "Failed to retrieve models: " ++ e.msg⟩,
   1)

/- ### GET /health -/

/-- Total field access on a JSON object (`None` for a missing key or a
non-object), used to state which value an emitted entry copies from a
descriptor; on an object it agrees with `dictGet _ _ Json.null`. -/
def objField (d : Json) (key : String) : Json :=
  match d with
  | .obj fields => (fields.lookup key).getD Json.null
  | _ => Json.null

/-- The `HealthResponse` pydantic model (`main.py` lines 55-57). -/
structure HealthResponse where
  status : String
  timestamp : Nat
deriving Repr, DecidableEq

/-- The `health_check` handler body (`main.py` lines 60-67): a fixed
"healthy" status with the current time. -/
def health_check (now : Nat) : HealthResponse :=
  { status := "healthy", timestamp := now }

/-- The full `GET /health` route.  The handler reads no configuration,
consults no upstream oracle and raises nothing, so the outcome is
always a 200 and the outbound-call count (second component) is 0. -/
def health_endpoint (now : Nat) : Except HttpError HealthResponse × Nat :=
  (.ok (health_check now), 0)

/- ### Helper lemmas -/

/-- The upstream calls a chat invocation attempts: none (credential
check failed), or exactly the one call built from the request with the
Python-falsy defaulting applied. -/
theorem chat_calls_cases (cfg : Config) (st : Option String) (request : ChatRequest)
    (upstream : ChatUpstreamCall → UpstreamChatResult) (elapsed : Rat) (now : Nat) :
    (chat_completion cfg st request upstream elapsed now).2.1 = [] ∨
    (chat_completion cfg st request upstream elapsed now).2.1 =
      [⟨cfg.groq_model, request.message, pyOrInt request.max_tokens cfg.max_tokens,
        pyOrRat request.temperature cfg.temperature, false⟩] := by
  unfold chat_completion
  split
  · exact Or.inl rfl
  · dsimp only
    split
    · exact Or.inr rfl
    · exact Or.inr rfl

theorem pyOrInt_ne_zero (x : Option Int) (d : Int) (hd : d ≠ 0) : pyOrInt x d ≠ 0 := by
  cases x with
  | none => exact hd
  | some v =>
      by_cases hv : v = 0
      · simp [pyOrInt, hv, hd]
      · simp [pyOrInt, hv]

theorem pyOrRat_ne_zero (x : Option Rat) (d : Rat) (hd : d ≠ 0) : pyOrRat x d ≠ 0 := by
  cases x with
  | none => exact hd
  | some v =>
      by_cases hv : v = 0
      · simp [pyOrRat, hv, hd]
      · simp [pyOrRat, hv]

/-- On a list of descriptors that are all JSON objects the extraction
loop succeeds and emits, in order, one five-field entry per
descriptor, each field copied by key lookup. -/
theorem extractModels_of_objs (ds : List Json)
    (h : ∀ d ∈ ds, ∃ fs, d = Json.obj fs) :
    extractModels ds = .ok (ds.map (fun d =>
      ⟨objField d "id", objField d "owned_by", objField d "active",
       objField d "context_window", objField d "max_completion_tokens"⟩)) := by
  induction ds with
  | nil => rfl
  | cons d rest ih =>
      obtain ⟨fs, rfl⟩ := h d (List.mem_cons_self d rest)
      have hrest := ih (fun x hx => h x (List.mem_cons_of_mem _ hx))
      simp only [extractModels, extractEntry, dictGet, bind, Except.bind, hrest,
        List.map_cons, pure, Except.pure, objField]

/-- Any successful outcome of the models try-block has
`total_models` equal to the length of `data`. -/
theorem modelsTryBody_total (cfg : Config) (fetch : Except PyExc Json)
    (r : ModelsResult) (h : modelsTryBody cfg fetch = .ok r) :
    r.total_models = r.data.length := by
  unfold modelsTryBody at h
  cases fetch with
  | error e => simp [bind, Except.bind] at h
  | ok body =>
      simp only [bind, Except.bind, pure, Except.pure] at h
      cases hd : dictGet body "data" (Json.arr []) with
      | error e => simp only [hd] at h; exact Except.noConfusion h
      | ok dataField =>
          simp only [hd] at h
          cases hi : pyIter dataField with
          | error e => simp only [hi] at h; exact Except.noConfusion h
          | ok items =>
              simp only [hi] at h
              cases hx : extractModels items with
              | error e => simp only [hx] at h; exact Except.noConfusion h
              | ok available_models =>
                  simp only [hx] at h
                  cases ho : dictGet body "object" Json.null with
                  | error e => simp only [ho] at h; exact Except.noConfusion h
                  | ok objF =>
                      simp only [ho] at h
                      cases h
                      rfl

/- ### Claim theorems -/

/-- C1 counterexample: with the default configuration, an upstream
model-listing call that connects, returns 2xx, but whose body fails
JSON decoding is answered with status 503 — not 500 as the claim
states — because `requests.exceptions.JSONDecodeError` is a
`RequestException` and is caught by the 503 handler. -/
theorem C1_counterexample :
    statusOf (get_available_models defaultConfig
      (.error (.jsonDecodeError "Expecting value: line 1 column 1 (char 0)"))).1 = 503 ∧
    statusOf (get_available_models defaultConfig
      (.error (.jsonDecodeError "Expecting value: line 1 column 1 (char 0)"))).1 ≠ 500 :=
  ⟨rfl, by decide⟩

/-- C1 (amended): for every GET /models request in which the upstream
call connects and returns HTTP success but the response body is
malformed JSON, the endpoint responds with status 503 and an error
detail embedding the decode error text, exactly as for transport-level
failures, since the JSON decode exception raised by the HTTP library
is itself a `RequestException`. -/
theorem C1_amended_malformed_json_503 (cfg : Config) (s : String) :
    (get_available_models cfg (.error (.jsonDecodeError s))).1 =
      .error ⟨503, "Unable to fetch models from Groq API: " ++ s⟩ :=
  rfl

/-- C6: every successful GET /models response has `total_models` equal
to the length of its `data` sequence, whatever the upstream outcome
was. -/
theorem C6_total_models_eq_length (cfg : Config) (fetch : Except PyExc Json)
    (r : ModelsResult) (h : (get_available_models cfg fetch).1 = .ok r) :
    r.total_models = r.data.length := by
  unfold get_available_models at h
  cases hm : modelsTryBody cfg fetch with
  | error e =>
      simp only [hm] at h
      split at h <;> exact Except.noConfusion h
  | ok result =>
      simp only [hm] at h
      cases h
      exact modelsTryBody_total cfg fetch _ hm

/-- C6 witness: a concrete zero-model upstream reply (`data` key
absent, so the loop runs over the default empty list) yields
`total_models = 0 = length of data`. -/
theorem C6_witness :
    (⟨Json.str "list", [], "openai/gpt-oss-120b", 0⟩ : ModelsResult).total_models =
      (⟨Json.str "list", [], "openai/gpt-oss-120b", 0⟩ : ModelsResult).data.length :=
  C6_total_models_eq_length defaultConfig (.ok (Json.obj [("object", Json.str "list")]))
    ⟨Json.str "list", [], "openai/gpt-oss-120b", 0⟩ rfl

/-- C7: a model-listing call failing at the network/transport level —
connection error, timeout, or a non-2xx status surfaced by
`raise_for_status` — is answered with status 503 and a detail
embedding the underlying error text. -/
theorem C7_transport_failure_503 (cfg : Config) (s : String) :
    (get_available_models cfg (.error (.connectionError s))).1 =
      .error ⟨503, "Unable to fetch models from Groq API: " ++ s⟩ ∧
    (get_available_models cfg (.error (.timeout s))).1 =
      .error ⟨503, "Unable to fetch models from Groq API: " ++ s⟩ ∧
    (get_available_models cfg (.error (.httpError s))).1 =
      .error ⟨503, "Unable to fetch models from Groq API: " ++ s⟩ :=
  ⟨rfl, rfl, rfl⟩

/-- C9: every GET /health request succeeds with status 200, body
status "healthy" and the current timestamp, and attempts zero outbound
calls; the handler takes neither the configuration nor an upstream
oracle, so the result is independent of the credential and of upstream
reachability. -/
theorem C9_health_always_healthy (now : Nat) :
    health_endpoint now = (.ok ⟨"healthy", now⟩, 0) ∧
    statusOf (health_endpoint now).1 = 200 :=
  ⟨rfl, rfl⟩

/-- C2 counterexample: with the credential absent (default
configuration, empty `GROQ_API_KEY`), a GET /models request still
attempts the outbound listing call — the handler performs no
credential check — so the outbound-call count is 1, not 0, and the
401 the unauthenticated call provokes upstream surfaces as 503, not as
an immediate 500. -/
theorem C2_counterexample :
    (get_available_models defaultConfig
      (.error (.httpError "401 Client Error: Unauthorized"))).2 = 1 ∧
    (get_available_models defaultConfig
      (.error (.httpError "401 Client Error: Unauthorized"))).2 ≠ 0 ∧
    statusOf (get_available_models defaultConfig
      (.error (.httpError "401 Client Error: Unauthorized"))).1 = 503 :=
  ⟨rfl, by decide, rfl⟩

/-- C2 (amended): only POST /chat guards on the credential: if the
configured credential is absent, the chat handler (whose lazily
initialized client can then never have been created) responds with
status 500 and attempts no outbound call; GET /models performs no such
check and issues its outbound call regardless. -/
theorem C2_amended_chat_500_no_call (cfg : Config) (request : ChatRequest)
    (upstream : ChatUpstreamCall → UpstreamChatResult) (elapsed : Rat) (now : Nat)
    (hkey : cfg.groq_api_key = "") :
    statusOf (chat_completion cfg none request upstream elapsed now).1 = 500 ∧
    (chat_completion cfg none request upstream elapsed now).2.1 = [] := by
  unfold chat_completion get_groq_client
  rw [hkey]
  exact ⟨rfl, rfl⟩

/-- C2 witness: the amended statement at a concrete request under the
default (credential-less) configuration. -/
theorem C2_witness :
    statusOf (chat_completion defaultConfig none ⟨"hello", none, none⟩
      (fun _ => .exc "unreachable") 0 0).1 = 500 ∧
    (chat_completion defaultConfig none ⟨"hello", none, none⟩
      (fun _ => .exc "unreachable") 0 0).2.1 = [] :=
  C2_amended_chat_500_no_call defaultConfig ⟨"hello", none, none⟩
    (fun _ => .exc "unreachable") 0 0 rfl

/-- C3 counterexample: a POST /chat body whose `message` is present
but empty is not rejected — `message : str` carries no emptiness
constraint — and an upstream call is made for it: with a credential
configured, the handler forwards the empty message and answers 200. -/
theorem C3_counterexample :
    (chat_endpoint (configWithKey "k") none ⟨some "", none, none⟩
      (fun _ => .ok "reply" 5) 0 0).2.1 =
      [⟨"openai/gpt-oss-120b", "", 1024, 7/10, false⟩] ∧
    statusOf (chat_endpoint (configWithKey "k") none ⟨some "", none, none⟩
      (fun _ => .ok "reply" 5) 0 0).1 = 200 :=
  ⟨rfl, rfl⟩

/-- C3 (amended): every POST /chat body must carry a `message` field:
a body with `message` missing is rejected with 422 by model
validation, and no upstream call is made for it; an empty-string
`message`, however, is accepted and forwarded upstream. -/
theorem C3_amended_missing_message_rejected (cfg : Config) (st : Option String)
    (body : ChatBodyJson) (upstream : ChatUpstreamCall → UpstreamChatResult)
    (elapsed : Rat) (now : Nat) (hmsg : body.message = none) :
    statusOf (chat_endpoint cfg st body upstream elapsed now).1 = 422 ∧
    (chat_endpoint cfg st body upstream elapsed now).2.1 = [] := by
  unfold chat_endpoint validateChatRequest
  rw [hmsg]
  exact ⟨rfl, rfl⟩

/-- C3 witness: the amended statement at a concrete message-less body. -/
theorem C3_witness :
    statusOf (chat_endpoint (configWithKey "k") none ⟨none, some 5, none⟩
      (fun _ => .ok "reply" 5) 0 0).1 = 422 ∧
    (chat_endpoint (configWithKey "k") none ⟨none, some 5, none⟩
      (fun _ => .ok "reply" 5) 0 0).2.1 = [] :=
  C3_amended_missing_message_rejected (configWithKey "k") none ⟨none, some 5, none⟩
    (fun _ => .ok "reply" 5) 0 0 rfl

/-- C4: for every chat request, each parameter among `max_tokens` and
`temperature` that is omitted is sent upstream as the configured
default for that parameter — 1024 and 0.7 under the default
configuration (any credential, everything else from the hardcoded
defaults) — regardless of whether the other parameter was supplied. -/
theorem C4_omitted_params_get_defaults (key : String) (st : Option String)
    (request : ChatRequest) (upstream : ChatUpstreamCall → UpstreamChatResult)
    (elapsed : Rat) (now : Nat) (call : ChatUpstreamCall)
    (hc : call ∈ (chat_completion (configWithKey key) st request upstream elapsed now).2.1) :
    (request.max_tokens = none → call.max_tokens = 1024) ∧
    (request.temperature = none → call.temperature = 7/10) := by
  rcases chat_calls_cases (configWithKey key) st request upstream elapsed now with h | h
  · rw [h] at hc
    simp at hc
  · rw [h, List.mem_singleton] at hc
    subst hc
    constructor
    · intro hmt
      simp [pyOrInt, hmt, configWithKey]
    · intro ht
      simp [pyOrRat, ht, configWithKey]

/-- C4 witness: two concrete mixed-omission requests — one omitting
only `max_tokens` (supplying temperature 1), one omitting only
`temperature` (supplying max_tokens 9) — whose upstream calls carry
the configured default for exactly the omitted parameter. -/
theorem C4_witness :
    (⟨"openai/gpt-oss-120b", "hi", 1024, 1, false⟩ : ChatUpstreamCall).max_tokens = 1024 ∧
    (⟨"openai/gpt-oss-120b", "yo", 9, 7/10, false⟩ : ChatUpstreamCall).temperature = 7/10 :=
  ⟨(C4_omitted_params_get_defaults "k" none ⟨"hi", none, some 1⟩ (fun _ => .ok "r" 3) 0 0
      ⟨"openai/gpt-oss-120b", "hi", 1024, 1, false⟩ (List.Mem.head _)).1 rfl,
   (C4_omitted_params_get_defaults "k" none ⟨"yo", some 9, none⟩ (fun _ => .ok "r" 3) 0 0
      ⟨"openai/gpt-oss-120b", "yo", 9, 7/10, false⟩ (List.Mem.head _)).2 rfl⟩

/-- C5: when the upstream listing returns a JSON object whose "data"
key holds a list of object descriptors, the endpoint succeeds and
emits exactly one entry per descriptor — none filtered, order
preserved — holding exactly the five fields id / owned_by / active /
context_window / max_completion_tokens, each copied unmodified from
the descriptor by key lookup. -/
theorem C5_descriptor_roundtrip (cfg : Config) (fields : List (String × Json))
    (descriptors : List Json)
    (hdata : fields.lookup "data" = some (Json.arr descriptors))
    (hobjs : ∀ d ∈ descriptors, ∃ fs, d = Json.obj fs) :
    (get_available_models cfg (.ok (Json.obj fields))).1 =
      .ok { object := (fields.lookup "object").getD Json.null
            data := descriptors.map (fun d =>
              ⟨objField d "id", objField d "owned_by", objField d "active",
               objField d "context_window", objField d "max_completion_tokens"⟩)
            current_model := cfg.groq_model
            total_models := descriptors.length } := by
  unfold get_available_models modelsTryBody
  simp only [bind, Except.bind, dictGet, hdata, Option.getD, pyIter,
    extractModels_of_objs descriptors hobjs, pure, Except.pure]
  simp [List.length_map]

/-- C5 witness: the specific descriptor with id="m1", owned_by="org",
active=true, context_window=8192, max_completion_tokens=1024 is
re-exposed with exactly those five fields and values. -/
theorem C5_witness :
    (get_available_models defaultConfig (.ok (Json.obj
      [("object", Json.str "list"),
       ("data", Json.arr [Json.obj
         [("id", Json.str "m1"), ("owned_by", Json.str "org"),
          ("active", Json.bool true), ("context_window", Json.num 8192),
          ("max_completion_tokens", Json.num 1024)]])]))).1 =
      .ok { object := Json.str "list"
            data := [⟨Json.str "m1", Json.str "org", Json.bool true,
                      Json.num 8192, Json.num 1024⟩]
            current_model := "openai/gpt-oss-120b"
            total_models := 1 } :=
  C5_descriptor_roundtrip defaultConfig
    [("object", Json.str "list"),
     ("data", Json.arr [Json.obj
       [("id", Json.str "m1"), ("owned_by", Json.str "org"),
        ("active", Json.bool true), ("context_window", Json.num 8192),
        ("max_completion_tokens", Json.num 1024)]])]
    [Json.obj [("id", Json.str "m1"), ("owned_by", Json.str "org"),
        ("active", Json.bool true), ("context_window", Json.num 8192),
        ("max_completion_tokens", Json.num 1024)]]
    rfl
    (by intro d hd
        rw [List.mem_singleton] at hd
        exact ⟨_, hd⟩)

/-- C8: every successful chat response carries the configured model
identifier in its `model` field, whatever `max_tokens` and
`temperature` the (non-empty) request supplied. -/
theorem C8_response_model_is_configured (cfg : Config) (st : Option String)
    (request : ChatRequest) (upstream : ChatUpstreamCall → UpstreamChatResult)
    (elapsed : Rat) (now : Nat) (resp : ChatResponse)
    (hmsg : request.message ≠ "")
    (h : (chat_completion cfg st request upstream elapsed now).1 = .ok resp) :
    resp.model = cfg.groq_model := by
  unfold chat_completion at h
  split at h
  · exact Except.noConfusion h
  · dsimp only at h
    split at h
    · cases h
      rfl
    · exact Except.noConfusion h

/-- C8 witness: a concrete successful chat response carries the
configured model id. -/
theorem C8_witness :
    (⟨"reply", "openai/gpt-oss-120b", 3, 0, 0⟩ : ChatResponse).model =
      (configWithKey "k").groq_model :=
  C8_response_model_is_configured (configWithKey "k") none ⟨"hi", some 9, some 1⟩
    (fun _ => .ok "reply" 3) 0 0 ⟨"reply", "openai/gpt-oss-120b", 3, 0, 0⟩
    (by decide) rfl

/-- C10: under the default configuration, a chat request that supplies
`max_tokens = 0` or `temperature = 0.0` has those values discarded in
favour of the configured defaults (`x or default` is decided by Python
falsiness), and consequently no request whatsoever can make the
service send max_tokens 0 or temperature 0.0 upstream. -/
theorem C10_zero_values_discarded (key : String) (st : Option String)
    (upstream : ChatUpstreamCall → UpstreamChatResult) (elapsed : Rat) (now : Nat) :
    (∀ request call,
      call ∈ (chat_completion (configWithKey key) st request upstream elapsed now).2.1 →
      (request.max_tokens = some 0 → call.max_tokens = 1024) ∧
      (request.temperature = some 0 → call.temperature = 7/10)) ∧
    (∀ request call,
      call ∈ (chat_completion (configWithKey key) st request upstream elapsed now).2.1 →
      call.max_tokens ≠ 0 ∧ call.temperature ≠ 0) := by
  constructor
  · intro request call hc
    rcases chat_calls_cases (configWithKey key) st request upstream elapsed now with h | h
    · rw [h] at hc
      simp at hc
    · rw [h, List.mem_singleton] at hc
      subst hc
      constructor
      · intro h0
        simp [pyOrInt, h0, configWithKey]
      · intro h1
        simp [pyOrRat, h1, configWithKey]
  · intro request call hc
    rcases chat_calls_cases (configWithKey key) st request upstream elapsed now with h | h
    · rw [h] at hc
      simp at hc
    · rw [h, List.mem_singleton] at hc
      subst hc
      constructor
      · exact pyOrInt_ne_zero _ _ (by norm_num [configWithKey])
      · exact pyOrRat_ne_zero _ _ (by norm_num [configWithKey])

/-- C10 witness: two concrete single-zero requests — one supplying
`max_tokens = 0` with a nonzero temperature, one supplying
`temperature = 0.0` with a nonzero max_tokens — each has exactly the
zero-valued parameter replaced by the configured default in the
upstream call. -/
theorem C10_witness :
    (⟨"openai/gpt-oss-120b", "ping", 1024, 1, false⟩ : ChatUpstreamCall).max_tokens = 1024 ∧
    (⟨"openai/gpt-oss-120b", "pong", 9, 7/10, false⟩ : ChatUpstreamCall).temperature = 7/10 :=
  ⟨((C10_zero_values_discarded "k" none (fun _ => .ok "r" 3) 0 0).1
      ⟨"ping", some 0, some 1⟩ ⟨"openai/gpt-oss-120b", "ping", 1024, 1, false⟩
      (List.Mem.head _)).1 rfl,
   ((C10_zero_values_discarded "k" none (fun _ => .ok "r" 3) 0 0).1
      ⟨"pong", some 9, some 0⟩ ⟨"openai/gpt-oss-120b", "pong", 9, 7/10, false⟩
      (List.Mem.head _)).2 rfl⟩

end GroqFastapi
